import Mathlib

/-
  Verification of the FFES sauna Home Assistant integration.

  The development shallowly embeds the coordinator, config-flow validation
  and field codecs of the repository. Network effects (Modbus register
  reads and writes, HTTP requests, DNS resolution) are modelled as explicit
  environment functions passed to the embedded operations; a Python
  exception raised by an external call is modelled as a dedicated outcome
  constructor, and a try/except block is modelled by mapping the erroneous
  outcomes to the value the handler returns.
-/

namespace FFESSauna

/-- A snapshot value: a numeric register value or a synthesized boolean
(the light and aux fields under the Modbus variant). -/
inductive Value where
  | num (n : Nat)
  | flag (b : Bool)
deriving DecidableEq

/-- Outcome of one Modbus holding-register read:
the call raised a Python exception, returned an ExceptionResponse or an
error-flagged response, or returned a response with a registers list. -/
inductive ReadOutcome where
  | raised
  | errorResponse
  | ok (registers : List Nat)
deriving DecidableEq

/-- Outcome of one Modbus register write. -/
inductive WriteOutcome where
  | raised
  | errorResponse
  | ok
deriving DecidableEq

/-- First-match association lookup, the embedding of a Python dict read
(entries are inserted with distinct keys by the embedded code). -/
def lookupKey {β : Type} (k : String) : List (String × β) → Option β
  | [] => none
  | (k2, v) :: rest => if k2 = k then some v else lookupKey k rest

/-- The register map of the Modbus coordinator poll
(coordinator._async_update_data), in Python dict insertion order. -/
def registerMap : List (Nat × String) :=
  [(1, "setTemp"), (2, "actualTemp"), (4, "profile"), (20, "controllerStatus"),
   (5, "sessionTime"), (6, "ventilationTime"), (9, "aromaValue"),
   (10, "humidityValue"), (11, "errorCode"), (15, "humidity")]

/-- The per-register read loop of the Modbus poll: each register is read
independently; an exception or an error response skips the field, a
successful response records registers[0], or 0 when the registers list is
empty. -/
def collectRegisters (read : Nat → ReadOutcome) : List (Nat × String) → List (String × Value)
  | [] => []
  | (addr, key) :: rest =>
    match read addr with
    | .ok regs => (key, Value.num (regs.headD 0)) :: collectRegisters read rest
    | _ => collectRegisters read rest

/-- The Modbus variant of FFESSaunaCoordinator._async_update_data.
connRaises models an exception while obtaining or connecting the client;
the required-field check and the synthesized fields follow the source.
Every raise inside the body becomes UpdateFailed, modelled as .error. -/
def modbusUpdateData (connRaises : Bool) (read : Nat → ReadOutcome) :
    Except Unit (List (String × Value)) :=
  if connRaises then .error ()
  else
    let data := collectRegisters read registerMap
    if (lookupKey "controllerStatus" data).isNone || (lookupKey "actualTemp" data).isNone then
      .error ()
    else
      .ok (data ++ [("light", Value.flag false), ("aux", Value.flag false),
                    ("controllerModel", Value.num 2)])

/-- Outcome of the HTTP GET of a poll under the HTTP variant: a raised
exception (timeout, client error, JSON error), or a response with a status
code and a parsed JSON body. -/
inductive HttpPoll where
  | raised
  | response (status : Nat) (body : List (String × Value))

/-- The HTTP variant of FFESSaunaCoordinator._async_update_data: a non-200
status or a raised exception becomes UpdateFailed; a 200 response returns
the parsed body as the snapshot with no further checks. -/
def httpUpdateData (poll : HttpPoll) : Except Unit (List (String × Value)) :=
  match poll with
  | .raised => .error ()
  | .response status body => if status ≠ 200 then .error () else .ok body

/-- Environment of the Modbus command path: whether obtaining the client
raises, and the outcome of each register write. -/
structure SendEnv where
  connRaises : Bool
  write : Nat → Int → WriteOutcome

/-- The keyword arguments read by the start_session branch of the Modbus
async_send_command: kwargs.get of time, profile, aroma, humidity. -/
structure StartKwargs where
  time : Option Int
  profile : Option Int
  aroma : Option Int
  humidity : Option Int

/-- A sequence of register writes whose responses are ignored (the
intermediate writes of start_session): a raised exception stops the
sequence, an error response does not. Returns whether a write raised and
the list of issued writes in order. -/
def modbusWriteSeq (write : Nat → Int → WriteOutcome) :
    List (Nat × Int) → Bool × List (Nat × Int)
  | [] => (false, [])
  | (addr, v) :: rest =>
    match write addr v with
    | .raised => (true, [(addr, v)])
    | _ =>
      let r := modbusWriteSeq write rest
      (r.1, (addr, v) :: r.2)

/-- The final register write of a Modbus command branch, whose response is
checked: ok yields True, an exception or error response yields False. -/
def finalWrite (write : Nat → Int → WriteOutcome) (addr : Nat) (v : Int)
    (issued : List (Nat × Int)) : Bool × List (Nat × Int) :=
  match write addr v with
  | .ok => (true, issued ++ [(addr, v)])
  | _ => (false, issued ++ [(addr, v)])

/-- The Modbus variant of FFESSaunaCoordinator.async_send_command. Returns
the boolean result (the catch-all except reduces every raise to False) and
the list of issued register writes in order. value stands for int(value). -/
def modbusSendCommand (env : SendEnv) (action : String) (value : Int) (kw : StartKwargs) :
    Bool × List (Nat × Int) :=
  if env.connRaises then (false, [])
  else if action = "set_temp" then finalWrite env.write 1 value []
  else if action = "set_profile" then finalWrite env.write 4 value []
  else if action = "start_session" then
    let sessionTime := kw.time.getD 1800
    let profileV := kw.profile.getD 2
    let aromaV := kw.aroma.getD 0
    let humidityV := kw.humidity.getD 0
    let r := modbusWriteSeq env.write
      [(5, sessionTime), (4, profileV), (1, value), (9, aromaV), (10, humidityV)]
    if r.1 then (false, r.2)
    else finalWrite env.write 20 1 r.2
  else if action = "stop_session" then finalWrite env.write 20 0 []
  else if action = "set_controller_status" then finalWrite env.write 20 value []
  else (false, [])

/-- The full write sequence of the start_session branch as the spec states
it: duration (5), profile (4), temperature (1), aroma (9), humidity (10),
then controller status HEAT (20, 1). -/
def startSessionSeq (value : Int) (kw : StartKwargs) : List (Nat × Int) :=
  [(5, kw.time.getD 1800), (4, kw.profile.getD 2), (1, value),
   (9, kw.aroma.getD 0), (10, kw.humidity.getD 0), (20, 1)]

/-- The form-encoded POST body built by the HTTP variant of
async_send_command: action and value always; the extra keyword parameters
are appended only when action is start_session. -/
def httpCommandData (action value : String) (kwargs : List (String × String)) :
    List (String × String) :=
  let data := [("action", action), ("value", value)]
  if action = "start_session" then data ++ kwargs else data

/-- Outcome of the POST of the HTTP command path: a raised exception, or a
response with a status code and a parsed JSON body (the success flag and
any other boolean fields). -/
inductive HttpCmdOutcome where
  | raised
  | response (status : Nat) (body : List (String × Bool))

/-- The HTTP variant of FFESSaunaCoordinator.async_send_command: builds the
form body, posts it, and reduces every failure to False; on a 200 response
the result is result.get with key success and default False. Returns the
result and the posted body. -/
def httpSendCommand (respond : List (String × String) → HttpCmdOutcome)
    (action value : String) (kwargs : List (String × String)) :
    Bool × List (String × String) :=
  let data := httpCommandData action value kwargs
  match respond data with
  | .raised => (false, data)
  | .response status body =>
    if status ≠ 200 then (false, data)
    else ((lookupKey "success" body).getD false, data)

/-- Python str.endswith, embedded over character lists so that concrete
instances evaluate. -/
def strEndsWith (s t : String) : Bool := t.data.isSuffixOf s.data

/-- A name-resolution call issued by _resolve_host_sync. -/
inductive ResolverCall where
  | gethostbyname (host : String)
  | getaddrinfo (host : String)
deriving DecidableEq

/-- DNS environment: whether socket.inet_aton accepts the string as an
IPv4 literal, and the outcomes of the two resolution methods (none models
a gaierror). -/
structure DnsEnv where
  inetAton : String → Bool
  gethostbyname : String → Option String
  getaddrinfo : String → Option (List String)

/-- The shared resolution tail of _resolve_host_sync: gethostbyname first,
then getaddrinfo, falling back to the original host when both fail or the
getaddrinfo result list is empty. Returns the result and the issued
resolver calls. -/
def resolveLocalName (env : DnsEnv) (host : String) : String × List ResolverCall :=
  match env.gethostbyname host with
  | some ip => (ip, [ResolverCall.gethostbyname host])
  | none =>
    match env.getaddrinfo host with
    | some (ip :: _) =>
      (ip, [ResolverCall.gethostbyname host, ResolverCall.getaddrinfo host])
    | _ =>
      (host, [ResolverCall.gethostbyname host, ResolverCall.getaddrinfo host])

/-- The coordinator variant of _resolve_host_sync: an inet_aton success
returns the host unchanged; a host not ending in .local is returned
unchanged; otherwise the two resolution methods are tried. -/
def resolveHostSyncCoordinator (env : DnsEnv) (host : String) :
    String × List ResolverCall :=
  if env.inetAton host then (host, [])
  else if strEndsWith host ".local" = false then (host, [])
  else resolveLocalName env host

/-- The config_flow variant of _resolve_host_sync: no inet_aton check; a
host not ending in .local is returned unchanged; otherwise the two
resolution methods are tried. -/
def resolveHostSyncFlow (env : DnsEnv) (host : String) :
    String × List ResolverCall :=
  if strEndsWith host ".local" = false then (host, [])
  else resolveLocalName env host

/-- An exception class raised inside the body of validate_input. -/
inductive RaisedErr where
  | cannotConnect
  | invalidData
  | readException
deriving DecidableEq

/-- The user-facing validation error classes of config_flow. -/
inductive ValidationError where
  | cannotConnect
  | invalidData
deriving DecidableEq

/-- The try-block body of config_flow.validate_input: connection check,
read of register 20 (CannotConnect on an error response, InvalidData on an
empty registers list), then read of register 2 whose error-flagged or
empty response is tolerated (actual_temp set to None) but whose raised
exception propagates. -/
def validateInputBody (connected : Bool) (read : Nat → ReadOutcome) :
    Except RaisedErr Unit :=
  if connected = false then .error .cannotConnect
  else
    match read 20 with
    | .raised => .error .readException
    | .errorResponse => .error .cannotConnect
    | .ok [] => .error .invalidData
    | .ok (_ :: _) =>
      match read 2 with
      | .raised => .error .readException
      | _ => .ok ()

/-- config_flow.validate_input: the except clauses re-raise every exception
raised in the body as CannotConnect (the broad except Exception clause also
catches the InvalidData raised for an empty registers list, so InvalidData
never escapes). -/
def validate_input (connected : Bool) (read : Nat → ReadOutcome) :
    Except ValidationError Unit :=
  match validateInputBody connected read with
  | .ok u => .ok u
  | .error _ => .error .cannotConnect

/-- Raw time decode of the session and ventilation time sensors
(sensor.py native_value): packed HHMM to total minutes when the raw value
is at least 100, otherwise plain minutes. -/
def timeMinutes (v : Nat) : Nat :=
  if v ≥ 100 then (v / 100) * 60 + v % 100 else v

/-- The hours and minutes split of select.py async_select_option: a raw
value of at least 100 splits as (v / 100, v % 100), otherwise (0, v). -/
def timeParts (v : Nat) : Nat × Nat :=
  if v ≥ 100 then (v / 100, v % 100) else (0, v)

/-- Two-digit zero padding of a Python format string with 02d. -/
def pad2 (n : Nat) : String :=
  if n < 10 then "0" ++ toString n else toString n

/-- The zero-padded HH:MM rendering built in select.py from a raw time
value. -/
def timeHHMM (v : Nat) : String :=
  pad2 (timeParts v).1 ++ ":" ++ pad2 (timeParts v).2

/-- Association lookup distributes over list append, first list first. -/
theorem lookupKey_append {β : Type} (k : String) (l1 l2 : List (String × β)) :
    lookupKey k (l1 ++ l2) =
      (match lookupKey k l1 with
       | some v => some v
       | none => lookupKey k l2) := by
  induction l1 with
  | nil => rfl
  | cons p rest ih =>
    obtain ⟨k2, v⟩ := p
    by_cases h : k2 = k <;> simp [lookupKey, h, ih]

/-- A key carried by no entry of the register map is absent from the
collected poll data. -/
theorem lookupKey_collect_none (read : Nat → ReadOutcome) (k : String) :
    ∀ m : List (Nat × String), (∀ p ∈ m, p.2 ≠ k) →
      lookupKey k (collectRegisters read m) = none := by
  intro m
  induction m with
  | nil => intro _; rfl
  | cons p rest ih =>
    intro h
    obtain ⟨addr, key⟩ := p
    have hk : key ≠ k := h (addr, key) (by simp)
    have hrest : ∀ q ∈ rest, q.2 ≠ k := fun q hq => h q (by simp [hq])
    cases hr : read addr <;> simp [collectRegisters, hr, lookupKey, hk, ih hrest]

/-- When the register map has pairwise distinct keys, a successful read of
an entry of the map is recorded in the collected poll data under that key,
with value registers.headD 0. -/
theorem lookupKey_collect_ok (read : Nat → ReadOutcome) :
    ∀ (m : List (Nat × String)) (addr : Nat) (k : String) (regs : List Nat),
      (m.map Prod.snd).Nodup → (addr, k) ∈ m → read addr = .ok regs →
      lookupKey k (collectRegisters read m) = some (Value.num (regs.headD 0)) := by
  intro m
  induction m with
  | nil => intro addr k regs _ hm; simp at hm
  | cons p rest ih =>
    intro addr k regs hnd hm hr
    obtain ⟨a2, k2⟩ := p
    rw [List.map_cons] at hnd
    have hnd2 := List.nodup_cons.mp hnd
    rcases List.mem_cons.mp hm with heq | hmem
    · cases heq
      simp [collectRegisters, hr, lookupKey]
    · have hk2 : k2 ≠ k := by
        intro hkk
        subst hkk
        exact hnd2.1 (by simpa using List.mem_map_of_mem Prod.snd hmem)
      cases hrr : read a2 with
      | raised =>
        simp only [collectRegisters, hrr]
        exact ih addr k regs hnd2.2 hmem hr
      | errorResponse =>
        simp only [collectRegisters, hrr]
        exact ih addr k regs hnd2.2 hmem hr
      | ok regs2 =>
        simp only [collectRegisters, hrr, lookupKey]
        rw [if_neg hk2]
        exact ih addr k regs hnd2.2 hmem hr

/-- When no write raises, the intermediate write loop issues the whole
list and reports no raise. -/
theorem modbusWriteSeq_noRaise (write : Nat → Int → WriteOutcome)
    (h : ∀ a v, write a v ≠ WriteOutcome.raised) :
    ∀ l : List (Nat × Int), modbusWriteSeq write l = (false, l) := by
  intro l
  induction l with
  | nil => rfl
  | cons p rest ih =>
    obtain ⟨a, v⟩ := p
    cases hw : write a v with
    | raised => exact absurd hw (h a v)
    | errorResponse => simp [modbusWriteSeq, hw, ih]
    | ok => simp [modbusWriteSeq, hw, ih]

/-- The writes issued by the intermediate write loop are an initial
segment of the requested list: writes already issued are never undone. -/
theorem modbusWriteSeq_initial (write : Nat → Int → WriteOutcome) :
    ∀ l : List (Nat × Int), ∃ rest, (modbusWriteSeq write l).2 ++ rest = l := by
  intro l
  induction l with
  | nil => exact ⟨[], rfl⟩
  | cons p rest ih =>
    obtain ⟨a, v⟩ := p
    obtain ⟨r, hr⟩ := ih
    cases hw : write a v with
    | raised => exact ⟨rest, by simp [modbusWriteSeq, hw]⟩
    | errorResponse => exact ⟨r, by simp [modbusWriteSeq, hw, hr]⟩
    | ok => exact ⟨r, by simp [modbusWriteSeq, hw, hr]⟩

/-- If the intermediate write loop reports no raise, it issued every
requested write. -/
theorem modbusWriteSeq_complete (write : Nat → Int → WriteOutcome) :
    ∀ l : List (Nat × Int), (modbusWriteSeq write l).1 = false →
      (modbusWriteSeq write l).2 = l := by
  intro l
  induction l with
  | nil => intro _; rfl
  | cons p rest ih =>
    intro h
    obtain ⟨a, v⟩ := p
    cases hw : write a v with
    | raised => simp [modbusWriteSeq, hw] at h
    | errorResponse =>
      simp [modbusWriteSeq, hw] at h ⊢
      exact ih h
    | ok =>
      simp [modbusWriteSeq, hw] at h ⊢
      exact ih h

/-- The final checked write is always issued, appended after the writes
already issued. -/
theorem finalWrite_snd (write : Nat → Int → WriteOutcome) (addr : Nat) (v : Int)
    (issued : List (Nat × Int)) :
    (finalWrite write addr v issued).2 = issued ++ [(addr, v)] := by
  cases h : write addr v <;> simp [finalWrite, h]

/-- The trace of the start_session branch equals the full spec sequence
whenever connecting succeeds and no write raises. -/
theorem modbusStartTrace_eq (env : SendEnv) (value : Int) (kw : StartKwargs)
    (hconn : env.connRaises = false)
    (hnr : ∀ a v, env.write a v ≠ WriteOutcome.raised) :
    (modbusSendCommand env "start_session" value kw).2 = startSessionSeq value kw := by
  have hseq := modbusWriteSeq_noRaise env.write hnr
    [(5, kw.time.getD 1800), (4, kw.profile.getD 2), (1, value),
     (9, kw.aroma.getD 0), (10, kw.humidity.getD 0)]
  simp [modbusSendCommand, hconn, hseq, finalWrite_snd, startSessionSeq]

/-- The posted body of the HTTP command path is the built form data,
whatever the response. -/
theorem httpSendCommand_snd (respond : List (String × String) → HttpCmdOutcome)
    (action value : String) (kwargs : List (String × String)) :
    (httpSendCommand respond action value kwargs).2 = httpCommandData action value kwargs := by
  cases hresp : respond (httpCommandData action value kwargs) with
  | raised => simp [httpSendCommand, hresp]
  | response status body =>
    simp only [httpSendCommand, hresp]
    split <;> rfl

/-- A successful Modbus poll returns exactly the collected register data
followed by the three synthesized fields, and the two required keys were
found in the collected data. -/
theorem modbusUpdateData_ok (connRaises : Bool) (read : Nat → ReadOutcome)
    (d : List (String × Value)) (h : modbusUpdateData connRaises read = Except.ok d) :
    d = collectRegisters read registerMap ++
        [("light", Value.flag false), ("aux", Value.flag false),
         ("controllerModel", Value.num 2)] ∧
      (lookupKey "controllerStatus" (collectRegisters read registerMap)).isSome = true ∧
      (lookupKey "actualTemp" (collectRegisters read registerMap)).isSome = true := by
  cases connRaises with
  | true => simp [modbusUpdateData] at h
  | false =>
    cases hcs : lookupKey "controllerStatus" (collectRegisters read registerMap) with
    | none => simp [modbusUpdateData, hcs] at h
    | some v =>
      cases hat : lookupKey "actualTemp" (collectRegisters read registerMap) with
      | none => simp [modbusUpdateData, hcs, hat] at h
      | some w =>
        simp [modbusUpdateData, hcs, hat] at h
        exact ⟨h.symm, rfl, rfl⟩

/-- C1 counterexample: under the HTTP transport variant, a poll that gets
an HTTP 200 response whose JSON body lacks controllerStatus succeeds and
returns that partial snapshot, so the claim does not hold for both
transport variants. -/
theorem c1_counterexample :
    httpUpdateData (HttpPoll.response 200 [("actualTemp", Value.num 50)]) =
      Except.ok [("actualTemp", Value.num 50)] ∧
      lookupKey "controllerStatus" [("actualTemp", Value.num 50)] = none :=
  ⟨rfl, rfl⟩

/-- C1 (amended): under the Modbus transport variant, every snapshot
returned by a successful poll contains both controllerStatus and
actualTemp; when either would be missing the poll raises UpdateFailed and
returns no snapshot. The HTTP variant returns the decoded body with no
required-key check. -/
theorem c1_theorem (connRaises : Bool) (read : Nat → ReadOutcome)
    (d : List (String × Value)) (h : modbusUpdateData connRaises read = Except.ok d) :
    (lookupKey "controllerStatus" d).isSome = true ∧
      (lookupKey "actualTemp" d).isSome = true := by
  obtain ⟨hd, hcs, hat⟩ := modbusUpdateData_ok connRaises read d h
  subst hd
  constructor
  · rw [lookupKey_append]
    cases hc : lookupKey "controllerStatus" (collectRegisters read registerMap) with
    | none => rw [hc] at hcs; simp at hcs
    | some v => simp
  · rw [lookupKey_append]
    cases hc : lookupKey "actualTemp" (collectRegisters read registerMap) with
    | none => rw [hc] at hat; simp at hat
    | some v => simp

/-- C1 witness: a concrete all-registers-readable environment yields a
snapshot carrying both required keys. -/
theorem c1_witness :
    (lookupKey "controllerStatus"
        [("setTemp", Value.num 1), ("actualTemp", Value.num 2), ("profile", Value.num 4),
         ("controllerStatus", Value.num 20), ("sessionTime", Value.num 5),
         ("ventilationTime", Value.num 6), ("aromaValue", Value.num 9),
         ("humidityValue", Value.num 10), ("errorCode", Value.num 11),
         ("humidity", Value.num 15), ("light", Value.flag false), ("aux", Value.flag false),
         ("controllerModel", Value.num 2)]).isSome = true ∧
      (lookupKey "actualTemp"
        [("setTemp", Value.num 1), ("actualTemp", Value.num 2), ("profile", Value.num 4),
         ("controllerStatus", Value.num 20), ("sessionTime", Value.num 5),
         ("ventilationTime", Value.num 6), ("aromaValue", Value.num 9),
         ("humidityValue", Value.num 10), ("errorCode", Value.num 11),
         ("humidity", Value.num 15), ("light", Value.flag false), ("aux", Value.flag false),
         ("controllerModel", Value.num 2)]).isSome = true :=
  c1_theorem false (fun a => ReadOutcome.ok [a]) _ rfl

/-- C4 counterexample: the command-path rendering of the raw time value 90
is the string 00:90, not 01:30 as the claim states; the decode of raw 90
is 90 minutes. -/
theorem c4_counterexample :
    timeMinutes 90 = 90 ∧ timeHHMM 90 = "00:90" ∧ timeHHMM 90 ≠ "01:30" := by
  refine ⟨rfl, rfl, ?_⟩
  decide

/-- C4 (amended): decode maps a raw value x to hours x / 100 and minutes
x % 100 when x is at least 100 (total minutes 60h+m) and to minutes x
otherwise; the rendering splits the raw value the same way into a
zero-padded HH:MM string, so repacking the split as h*100+m recovers every
raw value, raw 130 decodes to 90 minutes and renders as 01:30, while raw
90 decodes to 90 minutes but renders as 00:90 rather than 01:30. -/
theorem c4_theorem :
    (∀ v : Nat, (timeParts v).1 * 100 + (timeParts v).2 = v) ∧
      timeMinutes 130 = 90 ∧ timeHHMM 130 = "01:30" ∧
      timeMinutes 90 = 90 ∧ timeHHMM 90 = "00:90" := by
  refine ⟨?_, rfl, rfl, rfl, rfl⟩
  intro v
  unfold timeParts
  split <;> omega

/-- C8: every snapshot returned by a successful Modbus poll carries the
synthesized fields light = false, aux = false and controllerModel = 2,
whatever the register read outcomes were. -/
theorem c8_theorem (connRaises : Bool) (read : Nat → ReadOutcome)
    (d : List (String × Value)) (h : modbusUpdateData connRaises read = Except.ok d) :
    lookupKey "light" d = some (Value.flag false) ∧
      lookupKey "aux" d = some (Value.flag false) ∧
      lookupKey "controllerModel" d = some (Value.num 2) := by
  obtain ⟨hd, _, _⟩ := modbusUpdateData_ok connRaises read d h
  subst hd
  refine ⟨?_, ?_, ?_⟩ <;>
    rw [lookupKey_append, lookupKey_collect_none read _ registerMap (by decide)] <;> rfl

/-- C8 witness: the synthesized fields of a concrete successful poll. -/
theorem c8_witness :
    lookupKey "light" [("setTemp", Value.num 1), ("actualTemp", Value.num 2),
        ("profile", Value.num 4), ("controllerStatus", Value.num 20),
        ("sessionTime", Value.num 5), ("ventilationTime", Value.num 6),
        ("aromaValue", Value.num 9), ("humidityValue", Value.num 10),
        ("errorCode", Value.num 11), ("humidity", Value.num 15),
        ("light", Value.flag false), ("aux", Value.flag false),
        ("controllerModel", Value.num 2)] = some (Value.flag false) ∧
      lookupKey "aux" [("setTemp", Value.num 1), ("actualTemp", Value.num 2),
        ("profile", Value.num 4), ("controllerStatus", Value.num 20),
        ("sessionTime", Value.num 5), ("ventilationTime", Value.num 6),
        ("aromaValue", Value.num 9), ("humidityValue", Value.num 10),
        ("errorCode", Value.num 11), ("humidity", Value.num 15),
        ("light", Value.flag false), ("aux", Value.flag false),
        ("controllerModel", Value.num 2)] = some (Value.flag false) ∧
      lookupKey "controllerModel" [("setTemp", Value.num 1), ("actualTemp", Value.num 2),
        ("profile", Value.num 4), ("controllerStatus", Value.num 20),
        ("sessionTime", Value.num 5), ("ventilationTime", Value.num 6),
        ("aromaValue", Value.num 9), ("humidityValue", Value.num 10),
        ("errorCode", Value.num 11), ("humidity", Value.num 15),
        ("light", Value.flag false), ("aux", Value.flag false),
        ("controllerModel", Value.num 2)] = some (Value.num 2) :=
  c8_theorem false (fun a => ReadOutcome.ok [a]) _ rfl

/-- C10: a register read that returns a non-error response with an empty
registers list is recorded as value 0 for the corresponding field; in
particular, when register 2 reads back empty and register 20 is readable,
the poll succeeds and publishes actualTemp = 0. -/
theorem c10_theorem :
    (∀ (read : Nat → ReadOutcome) (addr : Nat) (key : String),
        (addr, key) ∈ registerMap → read addr = ReadOutcome.ok [] →
        lookupKey key (collectRegisters read registerMap) = some (Value.num 0)) ∧
      (∀ (read : Nat → ReadOutcome) (s : Nat) (tl : List Nat),
        read 2 = ReadOutcome.ok [] → read 20 = ReadOutcome.ok (s :: tl) →
        ∃ d, modbusUpdateData false read = Except.ok d ∧
          lookupKey "actualTemp" d = some (Value.num 0)) := by
  constructor
  · intro read addr key hmem hread
    exact lookupKey_collect_ok read registerMap addr key [] (by decide) hmem hread
  · intro read s tl h2 h20
    have hat := lookupKey_collect_ok read registerMap 2 "actualTemp" [] (by decide)
      (by decide) h2
    have hcs := lookupKey_collect_ok read registerMap 20 "controllerStatus" (s :: tl)
      (by decide) (by decide) h20
    refine ⟨collectRegisters read registerMap ++
      [("light", Value.flag false), ("aux", Value.flag false),
       ("controllerModel", Value.num 2)], ?_, ?_⟩
    · simp [modbusUpdateData, hat, hcs]
    · rw [lookupKey_append, hat]
      exact rfl

/-- C10 witness: with register 2 answering an empty-but-successful
response and register 20 readable, the concrete poll publishes
actualTemp = 0. -/
theorem c10_witness :
    (fun a => if a = 2 then ReadOutcome.ok [] else ReadOutcome.ok [a]) 2 =
        ReadOutcome.ok [] ∧
      ∃ d, modbusUpdateData false
          (fun a => if a = 2 then ReadOutcome.ok [] else ReadOutcome.ok [a]) =
          Except.ok d ∧ lookupKey "actualTemp" d = some (Value.num 0) :=
  ⟨rfl, c10_theorem.2 (fun a => if a = 2 then ReadOutcome.ok [] else ReadOutcome.ok [a])
    20 [] rfl rfl⟩

/-- C2: async_send_command returns a boolean in both transport variants
and reduces every transport or protocol failure to false: under Modbus
the call yields true only when connecting did not raise and the decisive
register write succeeded, and under HTTP only when the POST got a 200
response with a JSON success field equal to true. -/
theorem c2_theorem :
    (∀ (env : SendEnv) (action : String) (value : Int) (kw : StartKwargs),
        (modbusSendCommand env action value kw).1 = true →
        env.connRaises = false ∧ ∃ a v, env.write a v = WriteOutcome.ok) ∧
      (∀ (respond : List (String × String) → HttpCmdOutcome) (action value : String)
          (kwargs : List (String × String)),
        (httpSendCommand respond action value kwargs).1 = true →
        ∃ body, respond (httpCommandData action value kwargs) =
            HttpCmdOutcome.response 200 body ∧
          lookupKey "success" body = some true) := by
  constructor
  · intro env action value kw h
    by_cases hc : env.connRaises = true
    · simp [modbusSendCommand, hc] at h
    · have hcf : env.connRaises = false := by simpa using hc
      refine ⟨hcf, ?_⟩
      by_cases h1 : action = "set_temp"
      · subst h1
        cases hw : env.write 1 value with
        | ok => exact ⟨1, value, hw⟩
        | raised => simp [modbusSendCommand, hcf, finalWrite, hw] at h
        | errorResponse => simp [modbusSendCommand, hcf, finalWrite, hw] at h
      by_cases h2 : action = "set_profile"
      · subst h2
        cases hw : env.write 4 value with
        | ok => exact ⟨4, value, hw⟩
        | raised => simp [modbusSendCommand, hcf, finalWrite, hw] at h
        | errorResponse => simp [modbusSendCommand, hcf, finalWrite, hw] at h
      by_cases h3 : action = "start_session"
      · subst h3
        cases hflag : (modbusWriteSeq env.write
            [(5, kw.time.getD 1800), (4, kw.profile.getD 2), (1, value),
             (9, kw.aroma.getD 0), (10, kw.humidity.getD 0)]).1 with
        | true => simp [modbusSendCommand, hcf, hflag] at h
        | false =>
          cases hw : env.write 20 1 with
          | ok => exact ⟨20, 1, hw⟩
          | raised => simp [modbusSendCommand, hcf, hflag, finalWrite, hw] at h
          | errorResponse => simp [modbusSendCommand, hcf, hflag, finalWrite, hw] at h
      by_cases h4 : action = "stop_session"
      · subst h4
        cases hw : env.write 20 0 with
        | ok => exact ⟨20, 0, hw⟩
        | raised => simp [modbusSendCommand, hcf, finalWrite, hw] at h
        | errorResponse => simp [modbusSendCommand, hcf, finalWrite, hw] at h
      by_cases h5 : action = "set_controller_status"
      · subst h5
        cases hw : env.write 20 value with
        | ok => exact ⟨20, value, hw⟩
        | raised => simp [modbusSendCommand, hcf, finalWrite, hw] at h
        | errorResponse => simp [modbusSendCommand, hcf, finalWrite, hw] at h
      simp [modbusSendCommand, hcf, h1, h2, h3, h4, h5] at h
  · intro respond action value kwargs h
    cases hresp : respond (httpCommandData action value kwargs) with
    | raised => simp [httpSendCommand, hresp] at h
    | response status body =>
      by_cases hst : status = 200
      · subst hst
        simp [httpSendCommand, hresp] at h
        cases hs : lookupKey "success" body with
        | none => rw [hs] at h; simp at h
        | some b =>
          rw [hs] at h
          cases b with
          | false => simp at h
          | true => exact ⟨body, rfl, hs⟩
      · simp [httpSendCommand, hresp, hst] at h

/-- C2 witness: a concrete successful Modbus set_temp command returns
true, with the successful write exhibited. -/
theorem c2_witness :
    (modbusSendCommand (SendEnv.mk false (fun _ _ => WriteOutcome.ok)) "set_temp" 80
        (StartKwargs.mk none none none none)).1 = true ∧
      ((SendEnv.mk false (fun _ _ => WriteOutcome.ok)).connRaises = false ∧
        ∃ a v, (SendEnv.mk false (fun _ _ => WriteOutcome.ok)).write a v = WriteOutcome.ok) :=
  ⟨rfl, c2_theorem.1 (SendEnv.mk false (fun _ _ => WriteOutcome.ok)) "set_temp" 80
    (StartKwargs.mk none none none none) rfl⟩

/-- C3: the start_session branch of the Modbus command path issues the
writes session time to register 5, profile (default 2) to register 4,
temperature from value to register 1, aroma (default 0) to register 9,
humidity (default 0) to register 10, then controller status HEAT to
register 20, in that order, when no write raises; and whatever raises, the
issued writes are an initial segment of that sequence, never undone. -/
theorem c3_theorem :
    (∀ (env : SendEnv) (value : Int) (kw : StartKwargs),
        env.connRaises = false → (∀ a v, env.write a v ≠ WriteOutcome.raised) →
        (modbusSendCommand env "start_session" value kw).2 = startSessionSeq value kw) ∧
      (∀ (env : SendEnv) (value : Int) (kw : StartKwargs),
        ∃ rest, (modbusSendCommand env "start_session" value kw).2 ++ rest =
          startSessionSeq value kw) := by
  constructor
  · exact modbusStartTrace_eq
  · intro env value kw
    by_cases hc : env.connRaises = true
    · exact ⟨startSessionSeq value kw, by simp [modbusSendCommand, hc]⟩
    · have hcf : env.connRaises = false := by simpa using hc
      cases hflag : (modbusWriteSeq env.write
          [(5, kw.time.getD 1800), (4, kw.profile.getD 2), (1, value),
           (9, kw.aroma.getD 0), (10, kw.humidity.getD 0)]).1 with
      | true =>
        obtain ⟨r, hr⟩ := modbusWriteSeq_initial env.write
          [(5, kw.time.getD 1800), (4, kw.profile.getD 2), (1, value),
           (9, kw.aroma.getD 0), (10, kw.humidity.getD 0)]
        refine ⟨r ++ [(20, 1)], ?_⟩
        have htr : (modbusSendCommand env "start_session" value kw).2 =
            (modbusWriteSeq env.write
              [(5, kw.time.getD 1800), (4, kw.profile.getD 2), (1, value),
               (9, kw.aroma.getD 0), (10, kw.humidity.getD 0)]).2 := by
          simp [modbusSendCommand, hcf, hflag]
        rw [htr, ← List.append_assoc, hr]
        simp [startSessionSeq]
      | false =>
        have hcomp := modbusWriteSeq_complete env.write
          [(5, kw.time.getD 1800), (4, kw.profile.getD 2), (1, value),
           (9, kw.aroma.getD 0), (10, kw.humidity.getD 0)] hflag
        refine ⟨[], ?_⟩
        have htr : (modbusSendCommand env "start_session" value kw).2 =
            (modbusWriteSeq env.write
              [(5, kw.time.getD 1800), (4, kw.profile.getD 2), (1, value),
               (9, kw.aroma.getD 0), (10, kw.humidity.getD 0)]).2 ++ [(20, 1)] := by
          simp [modbusSendCommand, hcf, hflag, finalWrite_snd]
        rw [htr, hcomp]
        simp [startSessionSeq]

/-- C3 witness: a concrete raise-free environment issues exactly the six
writes of the start_session sequence, in order. -/
theorem c3_witness :
    (modbusSendCommand (SendEnv.mk false (fun _ _ => WriteOutcome.ok)) "start_session" 80
        (StartKwargs.mk (some 60) (some 2) none none)).2 =
      startSessionSeq 80 (StartKwargs.mk (some 60) (some 2) none none) :=
  c3_theorem.1 (SendEnv.mk false (fun _ _ => WriteOutcome.ok)) 80
    (StartKwargs.mk (some 60) (some 2) none none) rfl
    (fun _ _ h => WriteOutcome.noConfusion h)

/-- C5: host resolution passes a string accepted by inet_aton through
unchanged with zero resolver calls (coordinator variant); in both variants
a name for which gethostbyname fails and getaddrinfo fails or returns an
empty list resolves to the original hostname rather than raising, and the
config_flow variant passes any name not ending in .local (in particular
any IPv4 literal) through unchanged with zero resolver calls. -/
theorem c5_theorem :
    (∀ (env : DnsEnv) (host : String), env.inetAton host = true →
        resolveHostSyncCoordinator env host = (host, [])) ∧
      (∀ (env : DnsEnv) (host : String),
        env.gethostbyname host = none →
        (env.getaddrinfo host = none ∨ env.getaddrinfo host = some []) →
        (resolveHostSyncCoordinator env host).1 = host) ∧
      (∀ (env : DnsEnv) (host : String), strEndsWith host ".local" = false →
        resolveHostSyncFlow env host = (host, [])) ∧
      (∀ (env : DnsEnv) (host : String),
        env.gethostbyname host = none →
        (env.getaddrinfo host = none ∨ env.getaddrinfo host = some []) →
        (resolveHostSyncFlow env host).1 = host) := by
  have hlocal : ∀ (env : DnsEnv) (host : String),
      env.gethostbyname host = none →
      (env.getaddrinfo host = none ∨ env.getaddrinfo host = some []) →
      (resolveLocalName env host).1 = host := by
    intro env host hg ha
    rcases ha with ha | ha <;> simp [resolveLocalName, hg, ha]
  refine ⟨?_, ?_, ?_, ?_⟩
  · intro env host h
    simp [resolveHostSyncCoordinator, h]
  · intro env host hg ha
    by_cases hip : env.inetAton host = true
    · simp [resolveHostSyncCoordinator, hip]
    · have hipf : env.inetAton host = false := by simpa using hip
      by_cases hend : strEndsWith host ".local" = false
      · simp [resolveHostSyncCoordinator, hipf, hend]
      · have hendt : strEndsWith host ".local" = true := by simpa using hend
        simp [resolveHostSyncCoordinator, hipf, hendt]
        exact hlocal env host hg ha
  · intro env host h
    simp [resolveHostSyncFlow, h]
  · intro env host hg ha
    by_cases hend : strEndsWith host ".local" = false
    · simp [resolveHostSyncFlow, hend]
    · have hendt : strEndsWith host ".local" = true := by simpa using hend
      simp [resolveHostSyncFlow, hendt]
      exact hlocal env host hg ha

/-- C5 witness: a literal IPv4 string passes through both variants with
zero resolver calls, and an unresolvable .local name falls back to itself
in both variants. -/
theorem c5_witness :
    resolveHostSyncCoordinator
        (DnsEnv.mk (fun h => h == "192.168.1.4") (fun _ => none) (fun _ => none))
        "192.168.1.4" = ("192.168.1.4", []) ∧
      (resolveHostSyncCoordinator
        (DnsEnv.mk (fun h => h == "192.168.1.4") (fun _ => none) (fun _ => none))
        "sauna.local").1 = "sauna.local" ∧
      resolveHostSyncFlow
        (DnsEnv.mk (fun h => h == "192.168.1.4") (fun _ => none) (fun _ => none))
        "192.168.1.4" = ("192.168.1.4", []) ∧
      (resolveHostSyncFlow
        (DnsEnv.mk (fun h => h == "192.168.1.4") (fun _ => none) (fun _ => none))
        "sauna.local").1 = "sauna.local" :=
  ⟨c5_theorem.1 _ _ (by decide),
   c5_theorem.2.1 _ _ rfl (Or.inl rfl),
   c5_theorem.2.2.1 _ _ (by decide),
   c5_theorem.2.2.2 _ _ rfl (Or.inl rfl)⟩

/-- C6 counterexample: for the action light with an extra keyword
parameter, the HTTP command path posts a body holding only action and
value; the extra parameter is absent, though the command itself succeeds. -/
theorem c6_counterexample :
    (httpSendCommand (fun _ => HttpCmdOutcome.response 200 [("success", true)])
        "light" "1" [("foo", "2")]).1 = true ∧
      (httpSendCommand (fun _ => HttpCmdOutcome.response 200 [("success", true)])
        "light" "1" [("foo", "2")]).2 = [("action", "light"), ("value", "1")] ∧
      lookupKey "foo" (httpSendCommand (fun _ => HttpCmdOutcome.response 200 [("success", true)])
        "light" "1" [("foo", "2")]).2 = none :=
  ⟨rfl, rfl, rfl⟩

/-- C6 (amended): the HTTP command path always posts a form body holding
the fields action and value; the extra keyword parameters are included,
one field each, only when the action is start_session. -/
theorem c6_theorem (respond : List (String × String) → HttpCmdOutcome)
    (action value : String) (kwargs : List (String × String)) :
    lookupKey "action" (httpSendCommand respond action value kwargs).2 = some action ∧
      lookupKey "value" (httpSendCommand respond action value kwargs).2 = some value ∧
      (action = "start_session" → ∀ k v, (k, v) ∈ kwargs →
        (k, v) ∈ (httpSendCommand respond action value kwargs).2) := by
  rw [httpSendCommand_snd]
  by_cases hs : action = "start_session"
  · subst hs
    refine ⟨by simp [httpCommandData, lookupKey], by simp [httpCommandData, lookupKey], ?_⟩
    intro _ k v hkv
    simp [httpCommandData]
    exact Or.inr (Or.inr hkv)
  · refine ⟨by simp [httpCommandData, hs, lookupKey], by simp [httpCommandData, hs, lookupKey], ?_⟩
    intro hcontra
    exact absurd hcontra hs

/-- C6 witness: a concrete start_session command posts action, value and
the extra profile parameter. -/
theorem c6_witness :
    lookupKey "action" (httpSendCommand (fun _ => HttpCmdOutcome.raised) "start_session" ""
        [("profile", "2")]).2 = some "start_session" ∧
      ("profile", "2") ∈ (httpSendCommand (fun _ => HttpCmdOutcome.raised) "start_session" ""
        [("profile", "2")]).2 :=
  ⟨(c6_theorem (fun _ => HttpCmdOutcome.raised) "start_session" "" [("profile", "2")]).1,
   (c6_theorem (fun _ => HttpCmdOutcome.raised) "start_session" "" [("profile", "2")]).2.2
     rfl "profile" "2" (by simp)⟩

/-- C7: the Modbus register addresses agree between the read path and the
write path: the poll map carries status 20, actual-temp 2, set-temp 1,
profile 4, session-time 5, ventilation-time 6, aroma 9, humidity-set 10,
error-code 11, humidity-actual 15, and each command writes the same
address the poll reads for that field. -/
theorem c7_theorem :
    ((1, "setTemp") ∈ registerMap ∧ (2, "actualTemp") ∈ registerMap ∧
      (4, "profile") ∈ registerMap ∧ (20, "controllerStatus") ∈ registerMap ∧
      (5, "sessionTime") ∈ registerMap ∧ (6, "ventilationTime") ∈ registerMap ∧
      (9, "aromaValue") ∈ registerMap ∧ (10, "humidityValue") ∈ registerMap ∧
      (11, "errorCode") ∈ registerMap ∧ (15, "humidity") ∈ registerMap) ∧
      (∀ (env : SendEnv) (value : Int) (kw : StartKwargs), env.connRaises = false →
        (modbusSendCommand env "set_temp" value kw).2 = [(1, value)] ∧
        (modbusSendCommand env "set_profile" value kw).2 = [(4, value)] ∧
        (modbusSendCommand env "stop_session" value kw).2 = [(20, 0)] ∧
        (modbusSendCommand env "set_controller_status" value kw).2 = [(20, value)]) ∧
      (∀ (env : SendEnv) (value : Int) (kw : StartKwargs), env.connRaises = false →
        (∀ a v, env.write a v ≠ WriteOutcome.raised) →
        (modbusSendCommand env "start_session" value kw).2 =
          [(5, kw.time.getD 1800), (4, kw.profile.getD 2), (1, value),
           (9, kw.aroma.getD 0), (10, kw.humidity.getD 0), (20, 1)]) := by
  refine ⟨by decide, ?_, ?_⟩
  · intro env value kw hc
    refine ⟨?_, ?_, ?_, ?_⟩ <;> simp [modbusSendCommand, hc, finalWrite_snd]
  · intro env value kw hc hnr
    rw [modbusStartTrace_eq env value kw hc hnr]
    simp [startSessionSeq]

/-- C7 witness: the command write addresses at a concrete raise-free
environment. -/
theorem c7_witness :
    ((modbusSendCommand (SendEnv.mk false (fun _ _ => WriteOutcome.ok)) "set_temp" 75
        (StartKwargs.mk none none none none)).2 = [(1, 75)] ∧
      (modbusSendCommand (SendEnv.mk false (fun _ _ => WriteOutcome.ok)) "set_profile" 75
        (StartKwargs.mk none none none none)).2 = [(4, 75)] ∧
      (modbusSendCommand (SendEnv.mk false (fun _ _ => WriteOutcome.ok)) "stop_session" 75
        (StartKwargs.mk none none none none)).2 = [(20, 0)] ∧
      (modbusSendCommand (SendEnv.mk false (fun _ _ => WriteOutcome.ok))
        "set_controller_status" 75 (StartKwargs.mk none none none none)).2 = [(20, 75)]) ∧
      (modbusSendCommand (SendEnv.mk false (fun _ _ => WriteOutcome.ok)) "start_session" 75
        (StartKwargs.mk none none none none)).2 =
        [(5, (none : Option Int).getD 1800), (4, (none : Option Int).getD 2), (1, 75),
         (9, (none : Option Int).getD 0), (10, (none : Option Int).getD 0), (20, 1)] :=
  ⟨c7_theorem.2.1 (SendEnv.mk false (fun _ _ => WriteOutcome.ok)) 75
    (StartKwargs.mk none none none none) rfl,
   c7_theorem.2.2 (SendEnv.mk false (fun _ _ => WriteOutcome.ok)) 75
    (StartKwargs.mk none none none none) rfl (fun _ _ h => WriteOutcome.noConfusion h)⟩

/-- C9 counterexample: a configuration whose controllerStatus read
succeeds while the actualTemp read returns an error-flagged response is
accepted by validate_input, so validation does not require a successful
read of both required fields. -/
theorem c9_counterexample :
    validate_input true
        (fun a => if a = 20 then ReadOutcome.ok [1] else ReadOutcome.errorResponse) =
      Except.ok () ∧
      (fun a => if a = 20 then ReadOutcome.ok [1] else ReadOutcome.errorResponse) 2 =
        ReadOutcome.errorResponse :=
  ⟨rfl, rfl⟩

/-- C9 (amended): validate_input accepts only when the connection
succeeds and the controllerStatus read (register 20) returns a non-error,
non-empty response; an actualTemp read (register 2) that raises rejects
the configuration, but an actualTemp read returning an error-flagged
response is tolerated and the configuration is accepted anyway. -/
theorem c9_theorem :
    (∀ (connected : Bool) (read : Nat → ReadOutcome),
        validate_input connected read = Except.ok () →
        connected = true ∧ ∃ s tl, read 20 = ReadOutcome.ok (s :: tl)) ∧
      (∀ (connected : Bool) (read : Nat → ReadOutcome),
        read 2 = ReadOutcome.raised →
        validate_input connected read = Except.error ValidationError.cannotConnect) ∧
      (∀ (read : Nat → ReadOutcome) (s : Nat) (tl : List Nat),
        read 20 = ReadOutcome.ok (s :: tl) → read 2 = ReadOutcome.errorResponse →
        validate_input true read = Except.ok ()) := by
  refine ⟨?_, ?_, ?_⟩
  · intro connected read h
    cases connected with
    | false => simp [validate_input, validateInputBody] at h
    | true =>
      refine ⟨rfl, ?_⟩
      cases h20 : read 20 with
      | raised => simp [validate_input, validateInputBody, h20] at h
      | errorResponse => simp [validate_input, validateInputBody, h20] at h
      | ok regs =>
        cases regs with
        | nil => simp [validate_input, validateInputBody, h20] at h
        | cons s tl => exact ⟨s, tl, rfl⟩
  · intro connected read h2
    cases connected with
    | false => simp [validate_input, validateInputBody]
    | true =>
      cases h20 : read 20 with
      | raised => simp [validate_input, validateInputBody, h20]
      | errorResponse => simp [validate_input, validateInputBody, h20]
      | ok regs =>
        cases regs with
        | nil => simp [validate_input, validateInputBody, h20]
        | cons s tl => simp [validate_input, validateInputBody, h20, h2]
  · intro read s tl h20 h2
    simp [validate_input, validateInputBody, h20, h2]

/-- C9 witness: a concrete fully-readable configuration is accepted, and
the acceptance characterization applies to it. -/
theorem c9_witness :
    validate_input true (fun _ => ReadOutcome.ok [3]) = Except.ok () ∧
      (true = true ∧ ∃ s tl, (fun _ => ReadOutcome.ok [3]) 20 = ReadOutcome.ok (s :: tl)) :=
  ⟨rfl, c9_theorem.1 true (fun _ => ReadOutcome.ok [3]) rfl⟩

end FFESSauna
